import Mathlib

/-!
Verification development for the audio-transcriber-chat repository.

Part 1 embeds the frontend helpers found under `src/` (the markdown
cleanup in the chat interface, the `formatTime` helper of the audio
player, the drop-validation of the file-upload component and its
simulated progress updater).

Part 2 models the backend core (Transcription Service, Persistence
Store, Chat Service) from the specification, since the FastAPI backend
sources are not part of the repository snapshot; those definitions are
marked `Modelled from the spec`.

Part 3 states and settles the claims C1..C10.
-/

set_option maxRecDepth 4096

/-! ### JavaScript-style character classes -/

/-- The characters matched by the JavaScript regex class `\s`
(ASCII part: space, tab, newline, carriage return, vertical tab, form feed). -/
def jsSpace (c : Char) : Bool :=
  c == ' ' || c == '\t' || c == '\n' || c == '\r' ||
  c == Char.ofNat 11 || c == Char.ofNat 12

/-- The backtick character, used as the inline-code delimiter. -/
def codeTick : Char := Char.ofNat 96

/-! ### `cleanMarkdownFormatting` (components/chat-interface.tsx)

The source applies nine `String.replace` calls with global regexes.
Each regex is embedded as a left-to-right scanner over the character
list.  JavaScript `.` does not match a newline, `\s` is `jsSpace`,
`\d` is an ASCII digit, and lazy groups `(.*?)` take the shortest
match, backtracking when the rest of the pattern fails. -/

/-- Search for the closing delimiter `d` of a lazy group `d(.*?)d`:
returns the (newline-free) capture and the remainder after the closing
delimiter, or `none` when no closing delimiter occurs before a newline
or the end of the string. -/
def findClose (d : List Char) : List Char → Option (List Char × List Char)
  | [] => if d.isEmpty then some ([], []) else none
  | c :: t =>
    if d.isPrefixOf (c :: t) then some ([], (c :: t).drop d.length)
    else if c == '\n' then none
    else (findClose d t).map (fun p => (c :: p.1, p.2))

/-- One global replace of `d(.*?)d` by the capture `$1` (fuelled; the
fuel is always at least the number of characters, which suffices since
every step consumes at least one character). -/
def replaceDelimF (d : List Char) : Nat → List Char → List Char
  | 0, s => s
  | _ + 1, [] => []
  | fuel + 1, c :: t =>
    if d.isPrefixOf (c :: t) then
      match findClose d ((c :: t).drop d.length) with
      | some (cap, rest) => cap ++ replaceDelimF d fuel rest
      | none => c :: replaceDelimF d fuel t
    else c :: replaceDelimF d fuel t

/-- `text.replace(dRegex, '$1')` for a symmetric delimiter `d`. -/
def replaceDelim (d : List Char) (s : List Char) : List Char :=
  replaceDelimF d (s.length + 1) s

/-- Length of the greedy match of `#+\s+` at the given position
(`0` when there is no match). -/
def hashMatchLen (s : List Char) : Nat :=
  let hs := s.takeWhile (· == '#')
  let sp := (s.drop hs.length).takeWhile jsSpace
  if hs.isEmpty || sp.isEmpty then 0 else hs.length + sp.length

/-- Length of the greedy match of `\d+\.\s+` at the given position
(`0` when there is no match). -/
def numberedMatchLen (s : List Char) : Nat :=
  let ds := s.takeWhile (·.isDigit)
  if ds.isEmpty then 0
  else
    match s.drop ds.length with
    | '.' :: r =>
      let sp := r.takeWhile jsSpace
      if sp.isEmpty then 0 else ds.length + 1 + sp.length
    | _ => 0

/-- Length of the greedy match of `-\s+` at the given position
(`0` when there is no match). -/
def bulletMatchLen (s : List Char) : Nat :=
  match s with
  | '-' :: r =>
    let sp := r.takeWhile jsSpace
    if sp.isEmpty then 0 else 1 + sp.length
  | _ => 0

/-- One global multiline replace of an anchored pattern `^<pat>` by the
empty string: `matchLen` gives the greedy match length of `<pat>` at a
line start.  The boolean tracks whether the current position is a line
start of the original string (position 0 or preceded by `'\n'`). -/
def stripAnchoredF (matchLen : List Char → Nat) : Nat → Bool → List Char → List Char
  | 0, _, s => s
  | _ + 1, _, [] => []
  | fuel + 1, atStart, c :: t =>
    if atStart then
      let n := matchLen (c :: t)
      if n = 0 then c :: stripAnchoredF matchLen fuel (c == '\n') t
      else
        stripAnchoredF matchLen fuel (((c :: t).take n).getLast? == some '\n')
          ((c :: t).drop n)
    else c :: stripAnchoredF matchLen fuel (c == '\n') t

/-- `text.replace(anchoredRegexGM, '')`. -/
def stripAnchored (matchLen : List Char → Nat) (s : List Char) : List Char :=
  stripAnchoredF matchLen (s.length + 1) true s

/-- Lazy search for `(.*?)\)`: the earliest `')'` with a newline-free
capture before it; returns the capture and the remainder after `')'`. -/
def findParen : List Char → Option (List Char × List Char)
  | [] => none
  | c :: t =>
    if c == ')' then some ([], t)
    else if c == '\n' then none
    else (findParen t).map (fun p => (c :: p.1, p.2))

/-- Continuation of a `\[(.*?)\]\((.*?)\)` match after the opening
`'['`: grows the first lazy capture; at every `"]("` it tries the
second capture, backtracking into further growth of the first capture
when no closing `')'` is found. -/
def findLinkAuxF : Nat → List Char → List Char → Option (List Char × List Char)
  | 0, _, _ => none
  | fuel + 1, cap1, ']' :: '(' :: r2 =>
    match findParen r2 with
    | some (_, rest) => some (cap1, rest)
    | none => findLinkAuxF fuel (cap1 ++ [']']) ('(' :: r2)
  | _ + 1, _, [] => none
  | fuel + 1, cap1, c :: t =>
    if c == '\n' then none else findLinkAuxF fuel (cap1 ++ [c]) t

/-- One global replace of `\[(.*?)\]\((.*?)\)` by `$1` (fuelled). -/
def replaceLinksF : Nat → List Char → List Char
  | 0, s => s
  | _ + 1, [] => []
  | fuel + 1, c :: t =>
    if c == '[' then
      match findLinkAuxF (t.length + 1) [] t with
      | some (cap1, rest) => cap1 ++ replaceLinksF fuel rest
      | none => c :: replaceLinksF fuel t
    else c :: replaceLinksF fuel t

/-- `text.replace(linkRegex, '$1')`. -/
def replaceLinks (s : List Char) : List Char :=
  replaceLinksF (s.length + 1) s

/-- `cleanMarkdownFormatting` from `components/chat-interface.tsx`:
`if (!text) return ""` followed by the nine chained `.replace` calls
(bold italic, bold, italic, headers, inline code, strikethrough,
numbered lists, bullet points, links). -/
def cleanMarkdownFormatting (text : String) : String :=
  if text = "" then ""
  else
    let s1 := replaceDelim ['*', '*', '*'] text.data
    let s2 := replaceDelim ['*', '*'] s1
    let s3 := replaceDelim ['*'] s2
    let s4 := stripAnchored hashMatchLen s3
    let s5 := replaceDelim [codeTick] s4
    let s6 := replaceDelim ['~', '~'] s5
    let s7 := stripAnchored numberedMatchLen s6
    let s8 := stripAnchored bulletMatchLen s7
    String.mk (replaceLinks s8)

/-! ### `formatTime` (components/ui/audio-player.tsx)

JavaScript numbers are modelled as a tagged variant: `NaN`, the two
infinities, and finite values as exact rationals.  `Math.floor` is the
rational floor; the JavaScript remainder `%` truncates the quotient
toward zero. -/

/-- A JavaScript number: `NaN`, `Infinity`, `-Infinity`, or finite. -/
inductive JSNum
  | nan
  | posInf
  | negInf
  | finite (val : ℚ)
deriving DecidableEq

/-- JavaScript truncation toward zero of a finite value. -/
def jsTrunc (q : ℚ) : ℤ :=
  if 0 ≤ q then ⌊q⌋ else -⌊-q⌋

/-- The JavaScript remainder `a % b` for finite operands:
`a - b * trunc(a / b)` (the result takes the sign of the dividend). -/
def jsRem (a b : ℚ) : ℚ :=
  a - b * (jsTrunc (a / b) : ℚ)

/-- `String.prototype.padStart(n, c)` for a single-character pad. -/
def padStart (s : String) (n : Nat) (c : Char) : String :=
  if n ≤ s.length then s
  else String.mk (List.replicate (n - s.length) c) ++ s

/-- `formatTime` from `components/ui/audio-player.tsx`:
`"00:00"` for `NaN` or non-finite input, otherwise
`minutes.toString().padStart(2,'0') + ":" + seconds.toString().padStart(2,'0')`
with `minutes = Math.floor(time / 60)` and
`seconds = Math.floor(time % 60)`. -/
def formatTime (time : JSNum) : String :=
  match time with
  | .nan | .posInf | .negInf => "00:00"
  | .finite t =>
    let minutes : ℤ := ⌊t / 60⌋
    let seconds : ℤ := ⌊jsRem t 60⌋
    padStart (toString minutes) 2 '0' ++ ":" ++ padStart (toString seconds) 2 '0'

/-- The claim's reading of the `MM:SS` format for a finite time:
`floor(t / 60)` and `floor(t mod 60)` with the mathematical modulus
`t mod 60 = t - 60 * floor(t / 60)`, each printed in decimal and
left-padded with zeros to at least two digits. -/
def claimMMSS (t : ℚ) : String :=
  padStart (toString (⌊t / 60⌋ : ℤ)) 2 '0' ++ ":" ++
    padStart (toString (⌊t - 60 * (⌊t / 60⌋ : ℤ)⌋ : ℤ)) 2 '0'

/-- The claim's full description of `formatTime`: `"00:00"` for `NaN`
or non-finite input, `claimMMSS` for finite input. -/
def claimFormatTime : JSNum → String
  | .nan | .posInf | .negInf => "00:00"
  | .finite t => claimMMSS t

/-! ### Drop validation (components/file-upload.tsx)

`handleDrop` accepts a dropped file iff `file.type.startsWith('audio/')`
and otherwise sets the error `"Please upload an audio file."`. -/

/-- Outcome of the drop validation. -/
inductive DropOutcome
  | accepted
  | rejected (msg : String)
deriving DecidableEq

/-- The error message set by `handleDrop` for a non-audio file. -/
def dropErrorMsg : String := "Please upload an audio file."

/-- The validation performed by `handleDrop` in
`components/file-upload.tsx` on the declared MIME type of the dropped
file: `file.type.startsWith('audio/')`. -/
def handleDrop (fileType : String) : DropOutcome :=
  if "audio/".data.isPrefixOf fileType.data then .accepted
  else .rejected dropErrorMsg

/-- Modelled from the spec: the accepted set of declared audio types —
MP3, WAV, M4A, FLAC and (for recorded clips) a webm container —
expressed as the usual MIME type strings. -/
def specAcceptedAudioTypes : List String :=
  ["audio/mpeg", "audio/mp3", "audio/wav", "audio/x-wav", "audio/wave",
   "audio/mp4", "audio/m4a", "audio/x-m4a", "audio/flac", "audio/x-flac",
   "audio/webm"]

/-! ### Simulated upload progress (components/file-upload.tsx)

`setUploadProgress(prev => { const newProgress = prev + Math.random() * 10;
return newProgress >= 90 ? 90 : newProgress })`, with
`Math.random()` returning a value in `[0, 1)`. -/

/-- One tick of the simulated progress interval in `handleUpload`. -/
def progressUpdater (prev rand : ℚ) : ℚ :=
  let newProgress := prev + rand * 10
  if 90 ≤ newProgress then 90 else newProgress

/-- Outcome of the awaited `uploadAudioForTranscription` call inside
`handleUpload`: the `try` block completes, or the `catch` block runs. -/
inductive UploadOutcome
  | success
  | failure
deriving DecidableEq

/-- The successive values of `uploadProgress` produced by the interval:
the starting value followed by one `progressUpdater` tick per interval
firing (one `Math.random()` value each). -/
def progressStates : ℚ → List ℚ → List ℚ
  | p, [] => [p]
  | p, r :: rs => p :: progressStates (progressUpdater p r) rs

/-- The sequence of values taken by `uploadProgress` during one run of
`handleUpload` in `components/file-upload.tsx`: the initial
`setUploadProgress(0)`, the interval ticks, and — only when the awaited
transcription call returns successfully — the final
`setUploadProgress(100)`; the `catch` branch clears the interval and
sets no further progress. -/
def uploadProgressTrace (rands : List ℚ) : UploadOutcome → List ℚ
  | .success => progressStates 0 rands ++ [100]
  | .failure => progressStates 0 rands

/-! ### Part 2: the backend core, modelled from the spec

The FastAPI backend (transcription service, chat service, persistence
store) is not part of the repository snapshot, which contains only the
documentation and the frontend callers.  The definitions below are
therefore modelled from the specification (§3 Data model, §4 Component
design, §6 External interfaces, §7 Error handling). -/

/-- Modelled from the spec: the error taxonomy of §7. -/
inductive AppError
  | UnsupportedMediaError
  | MalformedPayloadError
  | NotFoundError
  | ValidationError
  | DanglingReferenceError
  | TranscriptionFailedError
  | AssistantUnavailableError
deriving DecidableEq

/-- Modelled from the spec: the chat-message role, `{user, assistant}`. -/
inductive Role
  | user
  | assistant
deriving DecidableEq

/-- Modelled from the spec: a persisted Transcription row (§3);
timestamps are abstracted as naturals. -/
structure Transcription where
  id : Nat
  filename : String
  content : String
  created_at : Nat
deriving DecidableEq

/-- Modelled from the spec: a persisted Chat Message row (§3). -/
structure ChatMessage where
  id : Nat
  transcription_id : Nat
  role : Role
  content : String
  created_at : Nat
deriving DecidableEq

/-- Modelled from the spec: the Persistence Store, two tables with
auto-incremented integer ids (§4.3, ARCHITECTURE.md schema). -/
structure Store where
  transcriptions : List Transcription
  chat_messages : List ChatMessage
  next_transcription_id : Nat
  next_message_id : Nat
deriving DecidableEq

/-- The freshly initialized store. -/
def Store.empty : Store := ⟨[], [], 1, 1⟩

/-- The ids of the transcriptions present in the store. -/
def transcriptionIds (s : Store) : List Nat :=
  s.transcriptions.map (·.id)

/-- Modelled from the spec: `insert_transcription` (§4.3) — an atomic
single-row insert assigning the next id. -/
def insert_transcription (s : Store) (filename content : String) (now : Nat) :
    Store × Transcription :=
  let t : Transcription := ⟨s.next_transcription_id, filename, content, now⟩
  (⟨s.transcriptions ++ [t], s.chat_messages,
    s.next_transcription_id + 1, s.next_message_id⟩, t)

/-- Modelled from the spec: `get_transcription(id)` (§4.3), failing
with `NotFoundError` when no row exists for the id. -/
def get_transcription (s : Store) (id : Nat) : Except AppError Transcription :=
  match s.transcriptions.find? (fun t => t.id == id) with
  | some t => .ok t
  | none => .error .NotFoundError

/-- Modelled from the spec: `list_transcriptions()` (§4.3). -/
def list_transcriptions (s : Store) : List Transcription :=
  s.transcriptions

/-- Modelled from the spec: `insert_chat_message` (§4.3) — fails with
`DanglingReferenceError` if `transcription_id` does not exist,
otherwise appends a single row with the next message id. -/
def insert_chat_message (s : Store) (tid : Nat) (role : Role)
    (content : String) (now : Nat) : Except AppError (Store × ChatMessage) :=
  if tid ∈ transcriptionIds s then
    let m : ChatMessage := ⟨s.next_message_id, tid, role, content, now⟩
    .ok (⟨s.transcriptions, s.chat_messages ++ [m],
          s.next_transcription_id, s.next_message_id + 1⟩, m)
  else .error .DanglingReferenceError

/-- The ordering of a chat history: ascending creation time, ties
broken by id (§3 invariant, §4.3). -/
def msgLE (a b : ChatMessage) : Prop :=
  a.created_at < b.created_at ∨ (a.created_at = b.created_at ∧ a.id ≤ b.id)

instance : DecidableRel msgLE := fun a b => by
  unfold msgLE; infer_instance

instance : IsTotal ChatMessage msgLE :=
  ⟨by intro a b; unfold msgLE; omega⟩

instance : IsTrans ChatMessage msgLE :=
  ⟨by intro a b c; unfold msgLE; omega⟩

/-- Modelled from the spec: `list_chat_messages(transcription_id)`
(§4.3) — the messages of the transcription ordered by creation time
ascending, ties broken by id. -/
def list_chat_messages (s : Store) (tid : Nat) : List ChatMessage :=
  List.insertionSort msgLE
    (s.chat_messages.filter (fun m => m.transcription_id == tid))

/-- Modelled from the spec: the normalized audio record produced by the
Intake Adapter (§4.1): bytes, filename and declared extension. -/
structure AudioInput where
  filename : String
  extension : String
  bytes : List Nat
deriving DecidableEq

/-- Modelled from the spec: the accepted extensions of the Intake
Adapter (§4.1). -/
def acceptedExtensions : List String :=
  ["mp3", "wav", "m4a", "flac", "webm"]

/-- Modelled from the spec: the Audio Intake Adapter (§4.1) — fails
with `UnsupportedMediaError` for a declared type outside the accepted
set, with `MalformedPayloadError` for an empty payload, and otherwise
passes the normalized record through (no content sniffing). -/
def intake (a : AudioInput) : Except AppError AudioInput :=
  if a.extension ∉ acceptedExtensions then .error .UnsupportedMediaError
  else if a.bytes.isEmpty then .error .MalformedPayloadError
  else .ok a

/-- Modelled from the spec: the result of `transcribe` as the tagged
variant of §9 — a persisted record carrying the new row, or an
ephemeral result carrying only the content (no id), which therefore
cannot be used for chat. -/
inductive TranscriptionResult
  | persisted (t : Transcription)
  | ephemeral (content : String)
deriving DecidableEq

/-- Modelled from the spec: `transcribe(audio, persist)` (§4.2, §4.8
state machine).  The external speech-to-text provider's answer is
passed as a value (`.ok text` or `.error msg`); a provider failure
surfaces as `TranscriptionFailedError` and writes nothing; on success
the row is written only when `persist` is true. -/
def transcribe (s : Store) (a : AudioInput) (persist : Bool)
    (provider : Except String String) (now : Nat) :
    Store × Except AppError TranscriptionResult :=
  match provider with
  | .error _ => (s, .error .TranscriptionFailedError)
  | .ok text =>
    if persist then
      let (s', t) := insert_transcription s a.filename text now
      (s', .ok (.persisted t))
    else (s, .ok (.ephemeral text))

/-- Modelled from the spec: the response shape of
`POST /transcriptions/real-time` (§6) — `{transcription}` when
`save_to_db` is false, `{transcription_id, transcription}` when true. -/
inductive RealTimeResponse
  | withId (transcription_id : Nat) (transcription : String)
  | contentOnly (transcription : String)
deriving DecidableEq

/-- Modelled from the spec: the `POST /transcriptions/real-time`
endpoint (§6): intake of the base64 payload, then `transcribe` with
`persist = save_to_db`, mapping the tagged result onto the two
response shapes. -/
def realTimeEndpoint (s : Store) (a : AudioInput) (save_to_db : Bool)
    (provider : Except String String) (now : Nat) :
    Store × Except AppError RealTimeResponse :=
  match intake a with
  | .error e => (s, .error e)
  | .ok a' =>
    match transcribe s a' save_to_db provider now with
    | (s', .ok (.persisted t)) => (s', .ok (.withId t.id t.content))
    | (s', .ok (.ephemeral c)) => (s', .ok (.contentOnly c))
    | (s', .error e) => (s', .error e)

/-- Modelled from the spec: the maximum chat-message length (§4.5
step 2, 1000 characters to match the observed validation). -/
def maxMessageLength : Nat := 1000

/-- Modelled from the spec: `ask(transcription_id, user_text)` (§4.5):
(1) the transcription must exist (`NotFoundError`), (2) the text must
be non-empty and at most `maxMessageLength` (`ValidationError`),
(3) the user message is persisted, (5) the external language model is
called (its answer passed as a value), failing with
`AssistantUnavailableError` while keeping the user message, and
(6)–(7) the assistant message is persisted and returned.  `t1`/`t2`
are the persistence times of the two messages. -/
def ask (s : Store) (tid : Nat) (user_text : String)
    (llm : Except String String) (t1 t2 : Nat) :
    Store × Except AppError ChatMessage :=
  match get_transcription s tid with
  | .error _ => (s, .error .NotFoundError)
  | .ok _ =>
    if user_text.length = 0 ∨ maxMessageLength < user_text.length then
      (s, .error .ValidationError)
    else
      match insert_chat_message s tid .user user_text t1 with
      | .error e => (s, .error e)
      | .ok (s1, _) =>
        match llm with
        | .error _ => (s1, .error .AssistantUnavailableError)
        | .ok answer =>
          match insert_chat_message s1 tid .assistant answer t2 with
          | .error e => (s1, .error e)
          | .ok (s2, m) => (s2, .ok m)

/-- Referential integrity of the store: every chat message references
an existing parent transcription. -/
def refIntegrity (s : Store) : Prop :=
  ∀ m ∈ s.chat_messages, m.transcription_id ∈ transcriptionIds s

/-! ### Part 3: the claims -/

/-- C7 counterexample: the declared type `audio/ogg` is outside the
declared accepted set (MP3, WAV, M4A, FLAC, webm), yet the drop
validation accepts it instead of failing, refuting "accepts exactly"
and "fails for every input whose declared type is outside this set". -/
theorem handleDrop_exact_set_cx :
    handleDrop "audio/ogg" = DropOutcome.accepted ∧
    "audio/ogg" ∉ specAcceptedAudioTypes := by
  decide

/-- C7 amended: the intake validation present in the source
(`handleDrop` of `components/file-upload.tsx`) accepts every file whose
declared MIME type starts with `audio/` — a strict superset of the
declared set MP3, WAV, M4A, FLAC, webm — and rejects every other
declared type with the error message `"Please upload an audio file."`
(no `UnsupportedMediaError` is raised by the code in the snapshot). -/
theorem handleDrop_amended :
    (∀ m : String, "audio/".data.isPrefixOf m.data = true →
      handleDrop m = DropOutcome.accepted) ∧
    (∀ m ∈ specAcceptedAudioTypes, handleDrop m = DropOutcome.accepted) ∧
    (∀ m : String, "audio/".data.isPrefixOf m.data = false →
      handleDrop m = DropOutcome.rejected dropErrorMsg) ∧
    (∃ m, handleDrop m = DropOutcome.accepted ∧ m ∉ specAcceptedAudioTypes) := by
  refine ⟨?_, by decide, ?_, ⟨"audio/ogg", by decide⟩⟩
  · intro m h
    simp [handleDrop, h]
  · intro m h
    simp [handleDrop, h]

/-- C7 witness: the amended theorem applied at the concrete declared
types `audio/ogg` (accepted through the `audio/` prefix), `audio/mpeg`
(accepted as a declared type) and `text/plain` (rejected). -/
theorem handleDrop_amended_witness :
    handleDrop "audio/ogg" = DropOutcome.accepted ∧
    handleDrop "audio/mpeg" = DropOutcome.accepted ∧
    handleDrop "text/plain" = DropOutcome.rejected dropErrorMsg :=
  ⟨handleDrop_amended.1 "audio/ogg" (by decide),
   handleDrop_amended.2.1 "audio/mpeg" (by decide),
   handleDrop_amended.2.2.1 "text/plain" (by decide)⟩

/-- C8 counterexample: `cleanMarkdownFormatting` is not idempotent.
On `"- - x"` one pass strips only the first bullet marker (the global
regex `^-\s+` continues scanning after the match, and the second `"- "`
is not at a line start of the original string), so a second pass strips
again: `f "- - x" = "- x"` but `f "- x" = "x"`. -/
theorem cleanMarkdown_idem_cx :
    cleanMarkdownFormatting "- - x" = "- x" ∧
    cleanMarkdownFormatting "- x" = "x" ∧
    cleanMarkdownFormatting (cleanMarkdownFormatting "- - x")
      ≠ cleanMarkdownFormatting "- - x" :=
  ⟨by decide, by decide, by decide⟩

/-- C8 amended: `cleanMarkdownFormatting` is total (it is a total Lean
function) and returns the empty string for the empty (JavaScript falsy)
input, but it is not idempotent: a second application can strip
markdown markers uncovered by the first pass. -/
theorem cleanMarkdown_amended :
    cleanMarkdownFormatting "" = "" ∧
    ∃ s : String,
      cleanMarkdownFormatting (cleanMarkdownFormatting s)
        ≠ cleanMarkdownFormatting s :=
  ⟨rfl, ⟨"- - x", by decide⟩⟩

/-- C10: the simulated progress updater of `handleUpload` keeps the
displayed progress in `[0, 90]`: one tick maps any previous value in
`[0, 90]` to a value in `[0, 90]` (for any `Math.random()` value in
`[0, 1)`), every value taken by `uploadProgress` during the ticking
stays in `[0, 90]` until the transcription call returns, and `100`
appears in the progress trace of a run if and only if the run's awaited
transcription call returned successfully. -/
theorem upload_progress_bound :
    (∀ prev rand : ℚ, 0 ≤ prev → prev ≤ 90 → 0 ≤ rand → rand < 1 →
      0 ≤ progressUpdater prev rand ∧ progressUpdater prev rand ≤ 90) ∧
    (∀ rs : List ℚ, (∀ r ∈ rs, 0 ≤ r ∧ r < 1) →
      ∀ p ∈ progressStates 0 rs, 0 ≤ p ∧ p ≤ 90) ∧
    (∀ (rs : List ℚ) (o : UploadOutcome), (∀ r ∈ rs, 0 ≤ r ∧ r < 1) →
      (100 ∈ uploadProgressTrace rs o ↔ o = .success)) := by
  have step : ∀ prev rand : ℚ, 0 ≤ prev → prev ≤ 90 → 0 ≤ rand → rand < 1 →
      0 ≤ progressUpdater prev rand ∧ progressUpdater prev rand ≤ 90 := by
    intro prev rand h0 h90 hr0 hr1
    have hval : progressUpdater prev rand
        = if 90 ≤ prev + rand * 10 then 90 else prev + rand * 10 := rfl
    rw [hval]
    by_cases h : (90 : ℚ) ≤ prev + rand * 10
    · rw [if_pos h]; norm_num
    · rw [if_neg h]; constructor <;> linarith
  have gen : ∀ (rs : List ℚ) (p : ℚ), 0 ≤ p → p ≤ 90 →
      (∀ r ∈ rs, 0 ≤ r ∧ r < 1) →
      ∀ x ∈ progressStates p rs, 0 ≤ x ∧ x ≤ 90 := by
    intro rs
    induction rs with
    | nil =>
      intro p h0 h90 _ x hx
      simp only [progressStates, List.mem_singleton] at hx
      subst hx
      exact ⟨h0, h90⟩
    | cons r rs ih =>
      intro p h0 h90 hall x hx
      simp only [progressStates, List.mem_cons] at hx
      rcases hx with rfl | hx'
      · exact ⟨h0, h90⟩
      · have hr := hall r (List.mem_cons_self r rs)
        have hstep := step p r h0 h90 hr.1 hr.2
        exact ih _ hstep.1 hstep.2
          (fun y hy => hall y (List.mem_cons_of_mem _ hy)) x hx'
  refine ⟨step, ?_, ?_⟩
  · intro rs hb
    exact gen rs 0 le_rfl (by norm_num) hb
  · intro rs o hb
    cases o with
    | success => simp [uploadProgressTrace]
    | failure =>
      simp only [uploadProgressTrace]
      constructor
      · intro hmem
        exact absurd (gen rs 0 le_rfl (by norm_num) hb 100 hmem).2 (by norm_num)
      · intro h
        exact UploadOutcome.noConfusion h

/-- C10 witness: one tick from progress `0` with `Math.random() = 0`,
and the absence of `100` from the trace of a failed run with no ticks. -/
theorem upload_progress_bound_witness :
    (0 ≤ progressUpdater 0 0 ∧ progressUpdater 0 0 ≤ 90) ∧
    (100 ∈ uploadProgressTrace [] UploadOutcome.failure
      ↔ UploadOutcome.failure = UploadOutcome.success) :=
  ⟨upload_progress_bound.1 0 0 le_rfl (by norm_num) le_rfl zero_lt_one,
   upload_progress_bound.2.2 [] UploadOutcome.failure
     (fun r hr => absurd hr (List.not_mem_nil r))⟩

/-- C9 counterexample: at the finite input `-30`, `formatTime` prints
`"-1:-30"` (the JavaScript remainder takes the sign of the dividend),
while the claim's `floor(t mod 60)` with the mathematical modulus gives
`"-1:30"`; the claim as stated over every finite number is false. -/
theorem formatTime_mod_cx :
    formatTime (JSNum.finite (-30)) = "-1:-30" ∧
    claimFormatTime (JSNum.finite (-30)) = "-1:30" ∧
    formatTime (JSNum.finite (-30)) ≠ claimFormatTime (JSNum.finite (-30)) := by
  have h1 : (⌊(-30 : ℚ) / 60⌋ : ℤ) = -1 := by norm_num
  have htr : jsTrunc ((-30 : ℚ) / 60) = 0 := by
    rw [jsTrunc, if_neg (by norm_num)]
    norm_num
  have h2 : (⌊jsRem (-30 : ℚ) 60⌋ : ℤ) = -30 := by
    rw [jsRem, htr]
    norm_num
  have hA : formatTime (JSNum.finite (-30)) = "-1:-30" := by
    simp only [formatTime]
    rw [h1, h2]
    decide
  have hB : claimFormatTime (JSNum.finite (-30)) = "-1:30" := by
    simp only [claimFormatTime, claimMMSS, h1]
    norm_num
    decide
  exact ⟨hA, hB, by rw [hA, hB]; decide⟩

/-- C9 amended: `formatTime` returns `"00:00"` for every `NaN` or
non-finite input, and for every finite **nonnegative** `t` it returns
`floor(t / 60)` and `floor(t mod 60)`, each in decimal left-padded with
zeros to at least two digits, separated by a colon (for nonnegative `t`
the JavaScript remainder coincides with the mathematical modulus). -/
theorem formatTime_amended :
    (∀ q : ℚ, 0 ≤ q →
      formatTime (JSNum.finite q) = claimFormatTime (JSNum.finite q)) ∧
    formatTime JSNum.nan = "00:00" ∧
    formatTime JSNum.posInf = "00:00" ∧
    formatTime JSNum.negInf = "00:00" := by
  refine ⟨?_, rfl, rfl, rfl⟩
  intro q hq
  have htr : jsTrunc (q / 60) = ⌊q / 60⌋ := if_pos (by positivity)
  simp only [formatTime, claimFormatTime, claimMMSS, jsRem, htr]

/-- C9 witness: the amended theorem applied at the finite input `0`. -/
theorem formatTime_amended_witness :
    formatTime (JSNum.finite 0) = claimFormatTime (JSNum.finite 0) :=
  formatTime_amended.1 0 le_rfl

/-- A successful `get_transcription` implies the id is present among
the stored transcription ids. -/
theorem get_transcription_mem {s : Store} {tid : Nat} {tr : Transcription}
    (h : get_transcription s tid = .ok tr) : tid ∈ transcriptionIds s := by
  unfold get_transcription at h
  cases hf : s.transcriptions.find? (fun t => t.id == tid) with
  | none => rw [hf] at h; exact absurd h (by simp)
  | some t =>
    rw [hf] at h
    have hmem := List.mem_of_find?_eq_some hf
    have hpred : t.id = tid := by simpa using List.find?_some hf
    rw [← hpred]
    exact List.mem_map_of_mem (·.id) hmem

/-- C1: for every valid audio input accepted by the Intake Adapter,
`transcribe(audio, persist = true)` has exactly two outcomes — a
persisted record whose `content` is the provider's returned text (and
the new row is the only change to the transcriptions table), or a
`TranscriptionFailedError` with the store unchanged (no row written). -/
theorem transcribe_persist_dichotomy (s : Store) (a : AudioInput)
    (provider : Except String String) (now : Nat)
    (_hvalid : intake a = .ok a) :
    (∃ t, (transcribe s a true provider now).2
        = .ok (.persisted t) ∧
      provider = .ok t.content ∧
      (transcribe s a true provider now).1.transcriptions
        = s.transcriptions ++ [t]) ∨
    ((transcribe s a true provider now).2
        = .error .TranscriptionFailedError ∧
      (transcribe s a true provider now).1 = s) := by
  cases provider with
  | error m => right; simp [transcribe]
  | ok text =>
    left
    exact ⟨⟨s.next_transcription_id, a.filename, text, now⟩,
      by simp [transcribe, insert_transcription], rfl,
      by simp [transcribe, insert_transcription]⟩

/-- C1 witness: the dichotomy at a valid mp3 input with a successful
provider response `"hello world"` on the empty store. -/
theorem transcribe_persist_dichotomy_witness :
    (∃ t, (transcribe Store.empty ⟨"clip.mp3", "mp3", [1]⟩ true
          (.ok "hello world") 0).2 = .ok (.persisted t) ∧
      (Except.ok "hello world" : Except String String) = .ok t.content ∧
      (transcribe Store.empty ⟨"clip.mp3", "mp3", [1]⟩ true
          (.ok "hello world") 0).1.transcriptions
        = Store.empty.transcriptions ++ [t]) ∨
    ((transcribe Store.empty ⟨"clip.mp3", "mp3", [1]⟩ true
          (.ok "hello world") 0).2 = .error .TranscriptionFailedError ∧
      (transcribe Store.empty ⟨"clip.mp3", "mp3", [1]⟩ true
          (.ok "hello world") 0).1 = Store.empty) :=
  transcribe_persist_dichotomy Store.empty ⟨"clip.mp3", "mp3", [1]⟩
    (.ok "hello world") 0 rfl

/-- C2: `transcribe(audio, persist = false)` never changes the store
(so the `list_transcriptions` count is unchanged), and on provider
success returns the ephemeral variant carrying only the content and no
id (so it cannot be used for chat); correspondingly the real-time
endpoint answers `{transcription}` when `save_to_db` is false and
`{transcription_id, transcription}` when it is true. -/
theorem transcribe_ephemeral_frame (s : Store) (a : AudioInput)
    (provider : Except String String) (now : Nat) :
    (transcribe s a false provider now).1 = s ∧
    (list_transcriptions (transcribe s a false provider now).1).length
      = (list_transcriptions s).length ∧
    (∀ text, provider = .ok text →
      (transcribe s a false provider now).2
        = .ok (.ephemeral text)) ∧
    (∀ text, intake a = .ok a → provider = .ok text →
      (realTimeEndpoint s a false provider now).2
        = .ok (.contentOnly text) ∧
      (realTimeEndpoint s a true provider now).2
        = .ok (.withId s.next_transcription_id text)) := by
  refine ⟨?_, ?_, ?_, ?_⟩
  · cases provider <;> simp [transcribe]
  · cases provider <;> simp [transcribe]
  · intro text hp; subst hp; simp [transcribe]
  · intro text hi hp
    subst hp
    simp [realTimeEndpoint, hi, transcribe, insert_transcription]

/-- C2 witness: the endpoint shapes at a valid webm clip with provider
text `"hi"` on the empty store: content only without `save_to_db`, id 1
plus content with it. -/
theorem transcribe_ephemeral_frame_witness :
    (realTimeEndpoint Store.empty ⟨"voice-recording.webm", "webm", [1]⟩
        false (.ok "hi") 0).2 = .ok (.contentOnly "hi") ∧
    (realTimeEndpoint Store.empty ⟨"voice-recording.webm", "webm", [1]⟩
        true (.ok "hi") 0).2 = .ok (.withId 1 "hi") :=
  (transcribe_ephemeral_frame Store.empty ⟨"voice-recording.webm", "webm", [1]⟩
    (.ok "hi") 0).2.2.2 "hi" rfl rfl

/-- C3 counterexample: the claim quantifies over **every** call with an
empty or overlong text, but when the transcription id does not exist
the spec's step order (§4.5, step 1 before step 2) makes `ask` fail
with `NotFoundError`, not `ValidationError`: a 1001-character message
against the empty store and id 1. -/
theorem ask_validation_cx :
    1000 < (String.mk (List.replicate 1001 'a')).length ∧
    (ask Store.empty 1 (String.mk (List.replicate 1001 'a'))
        (.ok "ans") 0 1).2 = .error .NotFoundError ∧
    (ask Store.empty 1 (String.mk (List.replicate 1001 'a'))
        (.ok "ans") 0 1).2 ≠ .error .ValidationError := by
  refine ⟨?_, rfl, ?_⟩
  · simp [String.length]
  · show (Except.error AppError.NotFoundError : Except AppError ChatMessage)
      ≠ Except.error AppError.ValidationError
    simp

/-- C3 amended: for every call `ask(tid, text)` in which `tid` exists
in the store and `text` is empty or exceeds 1000 characters, the
operation fails with `ValidationError`, leaves the store unchanged, and
does not depend on the language-model response (no message persisted,
no external call observable). -/
theorem ask_validation_amended (s : Store) (tid : Nat) (text : String)
    (llm llm' : Except String String) (t1 t2 : Nat) (tr : Transcription)
    (hget : get_transcription s tid = .ok tr)
    (hbad : text.length = 0 ∨ 1000 < text.length) :
    ask s tid text llm t1 t2 = (s, .error .ValidationError) ∧
    ask s tid text llm t1 t2 = ask s tid text llm' t1 t2 := by
  have key : ∀ l : Except String String,
      ask s tid text l t1 t2 = (s, .error .ValidationError) := by
    intro l
    simp only [ask, hget, maxMessageLength]
    rw [if_pos hbad]
  exact ⟨key llm, (key llm).trans (key llm').symm⟩

/-- C3 witness: the empty message against a store holding
transcription 1. -/
theorem ask_validation_amended_witness :
    ask ⟨[⟨1, "a.mp3", "hello", 0⟩], [], 2, 1⟩ 1 "" (.ok "x") 1 2
      = (⟨[⟨1, "a.mp3", "hello", 0⟩], [], 2, 1⟩, .error .ValidationError) :=
  (ask_validation_amended ⟨[⟨1, "a.mp3", "hello", 0⟩], [], 2, 1⟩ 1 ""
    (.ok "x") (.error "e") 1 2 ⟨1, "a.mp3", "hello", 0⟩ rfl (Or.inl rfl)).1

/-- C4: referential integrity is an invariant of the store —
`insert_chat_message` with any id not present among the stored
transcriptions fails with `DanglingReferenceError`, and both successful
`insert_chat_message` and `insert_transcription` preserve the property
that every stored chat message references an existing transcription. -/
theorem chat_ref_integrity :
    (∀ (s : Store) (tid : Nat) (role : Role) (content : String) (now : Nat),
      tid ∉ transcriptionIds s →
      insert_chat_message s tid role content now
        = .error .DanglingReferenceError) ∧
    (∀ (s : Store) (tid : Nat) (role : Role) (content : String) (now : Nat)
        (s' : Store) (m : ChatMessage), refIntegrity s →
      insert_chat_message s tid role content now = .ok (s', m) →
      refIntegrity s') ∧
    (∀ (s : Store) (fn ct : String) (now : Nat), refIntegrity s →
      refIntegrity (insert_transcription s fn ct now).1) := by
  refine ⟨?_, ?_, ?_⟩
  · intro s tid role content now h
    simp [insert_chat_message, h]
  · intro s tid role content now s' m hwf hins
    by_cases h : tid ∈ transcriptionIds s
    · simp only [insert_chat_message, if_pos h, Except.ok.injEq,
        Prod.mk.injEq] at hins
      obtain ⟨hs', _⟩ := hins
      subst hs'
      intro x hx
      simp only [transcriptionIds] at *
      rcases List.mem_append.1 hx with hx1 | hx2
      · exact hwf x hx1
      · rcases List.mem_singleton.1 hx2 with rfl
        exact h
    · simp [insert_chat_message, h] at hins
  · intro s fn ct now hwf x hx
    simp only [insert_transcription, transcriptionIds, List.map_append] at *
    exact List.mem_append.2 (Or.inl (hwf x hx))

/-- C4 witness: a dangling insert (id 5 on the empty store) fails, and
the store obtained by one transcription insert satisfies referential
integrity. -/
theorem chat_ref_integrity_witness :
    insert_chat_message Store.empty 5 Role.user "hi" 0
      = .error .DanglingReferenceError ∧
    refIntegrity (insert_transcription Store.empty "f.mp3" "c" 0).1 :=
  ⟨chat_ref_integrity.1 Store.empty 5 Role.user "hi" 0 (by decide),
   chat_ref_integrity.2.2 Store.empty "f.mp3" "c" 0
     (by intro m hm; exact absurd hm (List.not_mem_nil m))⟩

/-- C5: if the language-model call inside `ask` fails after the user
message has been persisted, the user message remains (it is the single
appended row), no assistant message is written for that turn, the
transcriptions table is untouched, and `ask` fails with
`AssistantUnavailableError`, which is distinct from `ValidationError`. -/
theorem ask_provider_failure (s : Store) (tid : Nat) (text : String)
    (errMsg : String) (t1 t2 : Nat) (tr : Transcription)
    (hget : get_transcription s tid = .ok tr)
    (hne : text.length ≠ 0) (hlen : text.length ≤ 1000) :
    (ask s tid text (.error errMsg) t1 t2).2
      = .error .AssistantUnavailableError ∧
    (ask s tid text (.error errMsg) t1 t2).1.chat_messages
      = s.chat_messages ++ [⟨s.next_message_id, tid, .user, text, t1⟩] ∧
    (ask s tid text (.error errMsg) t1 t2).1.transcriptions
      = s.transcriptions ∧
    AppError.AssistantUnavailableError ≠ AppError.ValidationError := by
  have hmem : tid ∈ transcriptionIds s := get_transcription_mem hget
  simp only [ask, hget, maxMessageLength]
  rw [if_neg (by omega)]
  simp [insert_chat_message, hmem]

/-- C5 witness: a failing provider call (`"network error"`) for the
message `"what did I say?"` against a store holding transcription 1. -/
theorem ask_provider_failure_witness :
    (ask ⟨[⟨1, "a.mp3", "hello world", 0⟩], [], 2, 1⟩ 1 "what did I say?"
        (.error "network error") 1 2).2
      = .error .AssistantUnavailableError ∧
    (ask ⟨[⟨1, "a.mp3", "hello world", 0⟩], [], 2, 1⟩ 1 "what did I say?"
        (.error "network error") 1 2).1.chat_messages
      = [] ++ [⟨1, 1, .user, "what did I say?", 1⟩] ∧
    (ask ⟨[⟨1, "a.mp3", "hello world", 0⟩], [], 2, 1⟩ 1 "what did I say?"
        (.error "network error") 1 2).1.transcriptions
      = [⟨1, "a.mp3", "hello world", 0⟩] ∧
    AppError.AssistantUnavailableError ≠ AppError.ValidationError :=
  ask_provider_failure ⟨[⟨1, "a.mp3", "hello world", 0⟩], [], 2, 1⟩ 1
    "what did I say?" "network error" 1 2 ⟨1, "a.mp3", "hello world", 0⟩
    rfl (by decide) (by decide)

/-- C6: `list_chat_messages` is always sorted by creation time with
ties broken by id, and in particular three messages inserted for a
transcription at distinct times `t1 < t2 < t3` are returned in the
order `t1, t2, t3`. -/
theorem chat_history_order (fn ct : String) (tc t1 t2 t3 : Nat)
    (c1 c2 c3 : String) (r1 r2 r3 : Role)
    (h12 : t1 < t2) (h23 : t2 < t3) :
    (∀ (s : Store) (tid : Nat),
      List.Sorted msgLE (list_chat_messages s tid)) ∧
    ∃ s1 s2 s3 m1 m2 m3,
      insert_chat_message (insert_transcription Store.empty fn ct tc).1
          (insert_transcription Store.empty fn ct tc).2.id r1 c1 t1
        = .ok (s1, m1) ∧
      insert_chat_message s1
          (insert_transcription Store.empty fn ct tc).2.id r2 c2 t2
        = .ok (s2, m2) ∧
      insert_chat_message s2
          (insert_transcription Store.empty fn ct tc).2.id r3 c3 t3
        = .ok (s3, m3) ∧
      m1.created_at = t1 ∧ m2.created_at = t2 ∧ m3.created_at = t3 ∧
      list_chat_messages s3 (insert_transcription Store.empty fn ct tc).2.id
        = [m1, m2, m3] := by
  constructor
  · intro s tid
    exact List.sorted_insertionSort msgLE _
  · refine ⟨⟨[⟨1, fn, ct, tc⟩], [⟨1, 1, r1, c1, t1⟩], 2, 2⟩,
      ⟨[⟨1, fn, ct, tc⟩], [⟨1, 1, r1, c1, t1⟩, ⟨2, 1, r2, c2, t2⟩], 2, 3⟩,
      ⟨[⟨1, fn, ct, tc⟩],
        [⟨1, 1, r1, c1, t1⟩, ⟨2, 1, r2, c2, t2⟩, ⟨3, 1, r3, c3, t3⟩], 2, 4⟩,
      ⟨1, 1, r1, c1, t1⟩, ⟨2, 1, r2, c2, t2⟩, ⟨3, 1, r3, c3, t3⟩,
      rfl, rfl, rfl, rfl, rfl, rfl, ?_⟩
    have hsort : List.Sorted msgLE
        [⟨1, 1, r1, c1, t1⟩, ⟨2, 1, r2, c2, t2⟩, ⟨3, 1, r3, c3, t3⟩] := by
      simp [List.sorted_cons, msgLE]
      omega
    show List.insertionSort msgLE
        [⟨1, 1, r1, c1, t1⟩, ⟨2, 1, r2, c2, t2⟩, ⟨3, 1, r3, c3, t3⟩]
      = [⟨1, 1, r1, c1, t1⟩, ⟨2, 1, r2, c2, t2⟩, ⟨3, 1, r3, c3, t3⟩]
    exact List.Sorted.insertionSort_eq hsort

/-- C6 witness: a user/assistant/user exchange inserted at times
1, 2, 3 for the transcription created on the empty store. -/
theorem chat_history_order_witness :
    ∃ s1 s2 s3 m1 m2 m3,
      insert_chat_message
          (insert_transcription Store.empty "rec.wav" "hello world" 0).1
          (insert_transcription Store.empty "rec.wav" "hello world" 0).2.id
          Role.user "q1" 1 = .ok (s1, m1) ∧
      insert_chat_message s1
          (insert_transcription Store.empty "rec.wav" "hello world" 0).2.id
          Role.assistant "a1" 2 = .ok (s2, m2) ∧
      insert_chat_message s2
          (insert_transcription Store.empty "rec.wav" "hello world" 0).2.id
          Role.user "q2" 3 = .ok (s3, m3) ∧
      m1.created_at = 1 ∧ m2.created_at = 2 ∧ m3.created_at = 3 ∧
      list_chat_messages s3
          (insert_transcription Store.empty "rec.wav" "hello world" 0).2.id
        = [m1, m2, m3] :=
  (chat_history_order "rec.wav" "hello world" 0 1 2 3 "q1" "a1" "q2"
    Role.user Role.assistant Role.user (by decide) (by decide)).2
